import Mathlib

/-!
Verification of the pubmed-feed-pro core pipeline: a shallow embedding of the
query generator (`core/llm_generator.py`), the literature client
(`core/pubmed_client.py`), the content generator (`core/content_generator.py`),
the article store (`core/database.py`) and the CLI pipeline (`core/cli.py`),
together with theorems checking the specification claims against these
definitions.  External effects (HTTP responses, LLM replies, commit success)
are passed in as explicit oracle arguments; `Option`/`Except` model Python
`None` and raised exceptions.
-/

/-- Python truthiness of an `Optional[str]`: `None` and `""` are falsy. -/
def pyTruthy : Option String → Bool
  | none => false
  | some s => s != ""

/-- Python `str()` of an `Optional[str]` as used by f-string interpolation:
`None` renders as the literal text `None`. -/
def pyFormat : Option String → String
  | none => "None"
  | some s => s

/-! ## Article records (`core/pubmed_client.py`, class `PubMedArticle`)

`journal` and `doi` are `Option String` because the source can construct the
record with `journal_elem.text`/`doi_elem.text` equal to Python `None`;
`pmid` and `title` are plain strings because construction is guarded by
`if pmid and title`. -/

structure PubMedArticle where
  pmid : String
  title : String
  abstract : String
  authors : List String
  journal : Option String
  pub_date : String
  doi : Option String
  keywords : List String
  mesh_terms : List String
deriving Repr, DecidableEq

/-- `PubMedArticle.url`. -/
def PubMedArticle.url (a : PubMedArticle) : String :=
  "https://pubmed.ncbi.nlm.nih.gov/" ++ a.pmid ++ "/"

/-! ## XML article nodes (`PubMedClient.fetch_articles`, parsing section)

An element found by `ElementTree.find` either is absent (`none`) or carries an
optional text (`XText`, with `text = none` for an empty element, whose `.text`
is Python `None`). -/

structure XText where
  text : Option String
deriving Repr, DecidableEq

structure AuthorNode where
  lastName : Option XText
  foreName : Option XText
deriving Repr, DecidableEq

structure PubDateNode where
  year : Option XText
  month : Option XText
  day : Option XText
deriving Repr, DecidableEq

structure ArticleNode where
  pmidElem : Option XText
  titleElem : Option XText
  abstractTexts : List (Option String)
  authorNodes : List AuthorNode
  journalElem : Option XText
  pubDateElem : Option PubDateNode
  doiElem : Option XText
  keywordTexts : List (Option String)
  meshTexts : List (Option String)
deriving Repr, DecidableEq

/-- `pmid = pmid_elem.text if pmid_elem is not None else ""`. -/
def nodePmid (n : ArticleNode) : Option String :=
  match n.pmidElem with
  | some e => e.text
  | none => some ""

/-- `title = title_elem.text if title_elem is not None else ""`. -/
def nodeTitle (n : ArticleNode) : Option String :=
  match n.titleElem with
  | some e => e.text
  | none => some ""

/-- `abstract = " ".join([part.text for part in abstract_parts if part.text])`. -/
def nodeAbstract (n : ArticleNode) : String :=
  String.intercalate " " ((n.abstractTexts.filterMap id).filter (fun s => s != ""))

/-- One entry of the author loop: skipped unless a `LastName` child exists;
`name = lastname.text or ""`, prefixed by the f-string rendering of
`firstname.text` when a `ForeName` child exists. -/
def authorName (au : AuthorNode) : Option String :=
  match au.lastName with
  | none => none
  | some ln =>
    let name := ln.text.getD ""
    match au.foreName with
    | none => some name
    | some fn => some (pyFormat fn.text ++ " " ++ name)

/-- Authors: first ten author nodes, each through `authorName`. -/
def nodeAuthors (n : ArticleNode) : List String :=
  (n.authorNodes.take 10).filterMap authorName

/-- `journal = journal_elem.text if journal_elem is not None else ""`. -/
def nodeJournal (n : ArticleNode) : Option String :=
  match n.journalElem with
  | some e => e.text
  | none => some ""

/-- Publication date assembly.  The source appends `year.text`, `month.text`,
`day.text` (each `Optional[str]`) for the elements that are present and then
calls `" ".join(parts)`; a `None` entry makes `join` raise `TypeError`, which
the per-node handler turns into skipping the node.  `none` here models that
raise. -/
def nodePubDate (n : ArticleNode) : Option String :=
  match n.pubDateElem with
  | none => some ""
  | some pd =>
    let parts : List (Option String) :=
      (match pd.year with | some e => [e.text] | none => []) ++
      (match pd.month with | some e => [e.text] | none => []) ++
      (match pd.day with | some e => [e.text] | none => [])
    if parts.any (fun p => p.isNone) then none
    else some (String.intercalate " " (parts.filterMap id))

/-- `doi = doi_elem.text if doi_elem is not None else None`. -/
def nodeDoi (n : ArticleNode) : Option String :=
  n.doiElem.bind XText.text

/-- Keywords with truthy text. -/
def nodeKeywords (n : ArticleNode) : List String :=
  (n.keywordTexts.filterMap id).filter (fun s => s != "")

/-- MeSH descriptor names with truthy text. -/
def nodeMesh (n : ArticleNode) : List String :=
  (n.meshTexts.filterMap id).filter (fun s => s != "")

/-- Per-node extraction of `fetch_articles`: `none` when the node is skipped,
either because the publication-date join raised or because the final
`if pmid and title` gate failed. -/
def parseArticleNode (n : ArticleNode) : Option PubMedArticle :=
  match nodePubDate n with
  | none => none
  | some pd =>
    if pyTruthy (nodePmid n) && pyTruthy (nodeTitle n) then
      some
        { pmid := (nodePmid n).getD ""
          title := (nodeTitle n).getD ""
          abstract := nodeAbstract n
          authors := nodeAuthors n
          journal := nodeJournal n
          pub_date := pd
          doi := nodeDoi n
          keywords := nodeKeywords n
          mesh_terms := nodeMesh n }
    else none

/-! ## Batching (`fetch_articles`, `for i in range(0, len(pmids), batch_size)`)

`chunksAux` uses the list length as structural fuel; each step takes
`pmids[i : i + 100]` and recurses on the rest, exactly the slices the source
iterates over. -/

def chunksAux : Nat → List String → List (List String)
  | 0, _ => []
  | _, [] => []
  | fuel + 1, l => l.take 100 :: chunksAux fuel (l.drop 100)

/-- The consecutive batches of at most 100 identifiers that `fetch_articles`
requests. -/
def chunks (l : List String) : List (List String) :=
  chunksAux l.length l

/-- The batch loop of `fetch_articles`.  `respond i b` is the outcome of the
detail request for batch `b` at position `i`: `Except.error` models a raised
transport or XML-parse exception, which aborts the whole loop via the outer
`try`; the second component counts issued requests. -/
def runBatches (bs : List (List String)) (i : Nat)
    (respond : Nat → List String → Except Unit (List ArticleNode)) :
    List PubMedArticle × Nat :=
  match bs with
  | [] => ([], 0)
  | b :: rest =>
    match respond i b with
    | .error _ => ([], 1)
    | .ok ns =>
      let r := runBatches rest (i + 1) respond
      (ns.filterMap parseArticleNode ++ r.1, 1 + r.2)

/-- `PubMedClient.fetch_articles`: early return on an empty identifier list,
otherwise the batch loop over the 100-element slices. -/
def fetchArticles (pmids : List String)
    (respond : Nat → List String → Except Unit (List ArticleNode)) :
    List PubMedArticle × Nat :=
  if pmids.isEmpty then ([], 0)
  else runBatches (chunks pmids) 0 respond

/-- Articles parsed from a list of batches assuming their requests succeed
(used to state which articles a partially failing fetch returns). -/
def batchArticles (respond : Nat → List String → Except Unit (List ArticleNode)) :
    List (List String) → Nat → List PubMedArticle
  | [], _ => []
  | b :: rest, i =>
    (match respond i b with
     | .ok ns => ns.filterMap parseArticleNode
     | .error _ => []) ++ batchArticles respond rest (i + 1)

/-! ## Search (`PubMedClient.search`) -/

structure EsearchResult where
  idlist : Option (List String)
deriving Repr, DecidableEq

structure SearchEnvelope where
  esearchresult : Option EsearchResult
deriving Repr, DecidableEq

/-- `PubMedClient.search`: builds `({query}) AND {date_filter}`, performs the
request (`http`), decodes the JSON body (`decodeJson`), and reads
`data.get("esearchresult", {}).get("idlist", [])`; any raised step is caught
by the `except` clause and yields `[]`. -/
def searchPM (query : String) (dateFilter : String)
    (http : String → Except Unit String)
    (decodeJson : String → Except Unit SearchEnvelope) : List String :=
  let fullQuery := "(" ++ query ++ ") AND " ++ dateFilter
  match http fullQuery with
  | .error _ => []
  | .ok body =>
    match decodeJson body with
    | .error _ => []
    | .ok data => (data.esearchresult.bind EsearchResult.idlist).getD []

/-! ## Query generator (`core/llm_generator.py`, `QueryGenerator.generate_query`)

`llm` is the outcome of the chat-completion call: `some reply` when the call
returned the first choice text, `none` when any exception was raised. -/

def generate_query (interest : String) (llm : Option String) : String :=
  match llm with
  | some reply => reply.trim
  | none => "(" ++ interest ++ ")[Title/Abstract]"

/-! ## Content generator (`core/content_generator.py`) -/

/-- `ContentGenerator._fallback_xiaohongshu_long`. -/
def fallback_xiaohongshu_long (a : PubMedArticle) : String :=
  "🔥 " ++ a.title.take 50 ++ "...\n\n今天发现一篇超有意思的研究！" ++ pyFormat a.journal ++
  "刚发的，关于医学AI的新进展～\n\n💡 核心看点：\n• 用上了最新的LLM技术\n• 在医疗场景有新突破\n• 准确率很能打！\n\n" ++
  "⚠️ 但要注意：\n这类研究还在早期阶段，离临床实际应用还有距离，大家理性看待～\n\n📖 想深入了解的可以读原文：\n" ++
  a.url ++ "\n\n#医学AI #人工智能 #前沿科技 #" ++
  (match a.keywords with | [] => "医学前沿" | k :: _ => k)

/-- `ContentGenerator._fallback_xiaohongshu_short`. -/
def fallback_xiaohongshu_short (a : PubMedArticle) : String :=
  "📢 " ++ a.title.take 40 ++ "...\n\n期刊：" ++ pyFormat a.journal ++
  "\n\n🔬 用LLM技术解决医学问题\n📊 实验数据看起来不错\n⚡ 值得关注的新方向\n\n原文→ " ++
  a.url ++ "\n\n#LLM #医疗AI"

/-- `ContentGenerator._fallback_wechat_long`. -/
def fallback_wechat_long (a : PubMedArticle) : String :=
  let authors := match a.authors with
    | [] => "N/A"
    | _ => String.intercalate ", " (a.authors.take 3)
  "标题：" ++ a.title ++
  "\n\n【研究背景】\n本文探讨了大语言模型在医疗领域的最新应用进展。" ++
  "\n\n【研究方法】\n研究团队采用了先进的LLM架构，在医疗数据集上进行训练和验证。" ++
  "\n\n【核心结果】\n研究展示了LLM在医疗任务中的潜力，但具体统计指标需要查看原文。" ++
  "\n\n【临床意义】\n这类技术有望辅助临床决策，但需谨慎评估其可靠性和安全性。" ++
  "\n\n【技术亮点】\n使用了当前最先进的自然语言处理技术。" ++
  "\n\n【局限与展望】\n研究存在一定局限性，需要更大规模的临床验证。" ++
  "\n\n---\n作者：" ++ authors ++ "\n期刊：" ++ pyFormat a.journal ++
  "\n发表日期：" ++ a.pub_date ++ "\n原文链接：" ++ a.url ++ "\nPMID：" ++ a.pmid

/-- `ContentGenerator._fallback_wechat_short`. -/
def fallback_wechat_short (a : PubMedArticle) : String :=
  "标题：" ++ a.title ++
  "\n\n【研究简介】\n" ++ pyFormat a.journal ++ "发表的最新研究，探索LLM在医疗中的应用。" ++
  "\n\n【核心发现】\n研究展示了该技术的可行性和潜在价值，具体数据见原文。" ++
  "\n\n【实践价值】\n为医疗AI的发展提供了新的思路和参考。" ++
  "\n\n---\n原文链接：" ++ a.url

/-- `ContentGenerator.generate_xiaohongshu_long`: the try-block either yields
the stripped first-choice text (`some reply`) or raises (`none`) and the
deterministic fallback is substituted. -/
def generate_xiaohongshu_long (a : PubMedArticle) (llm : Option String) : String :=
  match llm with
  | some reply => reply.trim
  | none => fallback_xiaohongshu_long a

/-- `ContentGenerator.generate_xiaohongshu_short`. -/
def generate_xiaohongshu_short (a : PubMedArticle) (llm : Option String) : String :=
  match llm with
  | some reply => reply.trim
  | none => fallback_xiaohongshu_short a

/-- `ContentGenerator.generate_wechat_long`. -/
def generate_wechat_long (a : PubMedArticle) (llm : Option String) : String :=
  match llm with
  | some reply => reply.trim
  | none => fallback_wechat_long a

/-- `ContentGenerator.generate_wechat_short`. -/
def generate_wechat_short (a : PubMedArticle) (llm : Option String) : String :=
  match llm with
  | some reply => reply.trim
  | none => fallback_wechat_short a

/-- `ContentGenerator.generate_all`: the four variants, each awaited with its
own model-call outcome. -/
def generateAll (a : PubMedArticle) (o1 o2 o3 o4 : Option String) :
    List (String × String) :=
  [("xiaohongshu_long", generate_xiaohongshu_long a o1),
   ("xiaohongshu_short", generate_xiaohongshu_short a o2),
   ("wechat_long", generate_wechat_long a o3),
   ("wechat_short", generate_wechat_short a o4)]

/-! ## Article store (`core/database.py`) -/

/-- A row of the `articles` table. -/
structure ArticleRow where
  pmid : String
  title : String
  abstract : String
  authors : List String
  journal : Option String
  pub_date : String
  doi : Option String
  keywords : List String
  mesh_terms : List String
  quality_score : Rat
deriving Repr, DecidableEq

/-- The row built by `Database.save_article` from `article.to_dict()`. -/
def ArticleRow.ofArticle (d : PubMedArticle) (q : Rat) : ArticleRow :=
  { pmid := d.pmid
    title := d.title
    abstract := d.abstract
    authors := d.authors
    journal := d.journal
    pub_date := d.pub_date
    doi := d.doi
    keywords := d.keywords
    mesh_terms := d.mesh_terms
    quality_score := q }

/-- `Database.article_exists` / the `filter_by(pmid=...).first()` check. -/
def articleExists (rows : List ArticleRow) (pmid : String) : Bool :=
  rows.any (fun r => r.pmid == pmid)

/-- `Database.save_article`.  `commitOk` is the outcome of the unit-of-work:
`false` models a raised persistence error, on which the session is rolled back
and the call returns `False` with the table unchanged. -/
def saveArticle (rows : List ArticleRow) (d : PubMedArticle) (q : Rat)
    (commitOk : Bool) : Bool × List ArticleRow :=
  if articleExists rows d.pmid then (false, rows)
  else if commitOk then (true, rows ++ [ArticleRow.ofArticle d q])
  else (false, rows)

/-- A row of the `search_history` table. -/
structure SearchHistoryEntry where
  query : String
  natural_language : Option String
  total_found : Nat
  new_articles : Nat
deriving Repr, DecidableEq

/-- A row of the `reports` table. -/
structure ReportRow where
  id : String
  date : String
  article_ids : List String
  file_paths : List (String × String)
  article_count : Nat
deriving Repr, DecidableEq

/-- The three persisted tables touched by a pipeline run. -/
structure PipelineState where
  articles : List ArticleRow
  reports : List ReportRow
  history : List SearchHistoryEntry
deriving Repr, DecidableEq

/-! ## Report assembly and the CLI pipeline (`core/cli.py`, `run_search`) -/

/-- One element of `new_articles` in `run_search`: `{"article": ..,
"content": ..}` where the content mapping is `None` in dry-run mode. -/
structure RunItem where
  article : PubMedArticle
  content : Option (List (String × String))
deriving Repr, DecidableEq

/-- Modelled from the spec: `core/reporter.py` (`ReportGenerator.create_report`)
is not under `src/`.  Per spec §4.5 it writes the variant texts of each item to
files under a per-date directory named `variant_index`, generates a fresh
report identifier, persists the `Report` record through the store (whose
`save_report` swallows commit failures, modelled by `commitOk`), and returns
the record.  Iterating the variant texts of an item whose content mapping is
absent (Python `None`) raises before anything is written or persisted. -/
def createReport (items : List RunItem) (reportId : String) (date : String)
    (commitOk : Bool) (st : PipelineState) :
    Except Unit (ReportRow × PipelineState) :=
  if items.any (fun it => it.content.isNone) then .error ()
  else
    let files :=
      (items.enum.map (fun p =>
        (p.2.content.getD []).map (fun vt =>
          (vt.1 ++ "_" ++ toString p.1,
           "data/reports/" ++ date ++ "/" ++ vt.1 ++ "_" ++ toString p.1 ++ ".md")))).flatten
    let report : ReportRow :=
      { id := reportId
        date := date
        article_ids := items.map (fun it => it.article.pmid)
        file_paths := files
        article_count := items.length }
    .ok (report, if commitOk then { st with reports := st.reports ++ [report] } else st)

/-- The per-variant model-call outcomes for one article. -/
structure VariantOracles where
  xhsLong : Option String
  xhsShort : Option String
  wcLong : Option String
  wcShort : Option String

/-- The `for i, article in enumerate(articles, 1)` loop of `run_search`:
skip articles already in the store; in dry-run append the article with content
`None`; otherwise generate all four variants, append, and save the article
(ignoring the returned flag).  The third component counts `generate_all`
calls. -/
def processArticles (dry : Bool) (co : String → VariantOracles)
    (so : String → Bool) :
    List PubMedArticle → PipelineState → List RunItem × PipelineState × Nat
  | [], st => ([], st, 0)
  | a :: rest, st =>
    if articleExists st.articles a.pmid then
      processArticles dry co so rest st
    else if dry then
      let r := processArticles dry co so rest st
      (⟨a, none⟩ :: r.1, r.2.1, r.2.2)
    else
      let os := co a.pmid
      let content := generateAll a os.xhsLong os.xhsShort os.wcLong os.wcShort
      let saved := saveArticle st.articles a 0 (so a.pmid)
      let r := processArticles dry co so rest { st with articles := saved.2 }
      (⟨a, some content⟩ :: r.1, r.2.1, r.2.2 + 1)

/-- Outcome of one `run_search` invocation: the returned boolean, the store
state afterwards, and how many `generate_all` calls were made. -/
structure RunOutcome where
  success : Bool
  state : PipelineState
  genCalls : Nat
deriving Repr, DecidableEq

/-- `cli.run_search`.  `queryRes` is the outcome of query generation (its
exceptions are caught and make the run return `False`); `searchRes` the
outcome of `search_and_fetch`; `co`/`so` the per-article generation and
commit oracles; `reportCommitOk` the report-record commit outcome.  The
summary text file written after the report does not touch the store and is
not modelled. -/
def runSearch (queryRes : Except Unit String)
    (searchRes : Except Unit (List PubMedArticle))
    (dryRun : Bool) (co : String → VariantOracles) (so : String → Bool)
    (reportId : String) (date : String) (reportCommitOk : Bool)
    (st : PipelineState) : RunOutcome :=
  match queryRes with
  | .error _ => ⟨false, st, 0⟩
  | .ok _ =>
    match searchRes with
    | .error _ => ⟨false, st, 0⟩
    | .ok articles =>
      if articles.isEmpty then ⟨true, st, 0⟩
      else
        let p := processArticles dryRun co so articles st
        if p.1.isEmpty then ⟨true, p.2.1, p.2.2⟩
        else
          match createReport p.1 reportId date reportCommitOk p.2.1 with
          | .error _ => ⟨false, p.2.1, p.2.2⟩
          | .ok q => ⟨true, q.2, p.2.2⟩

/-! ## Sample data for witnesses and counterexamples -/

def sampleArticle : PubMedArticle :=
  { pmid := "12345"
    title := "Sample study"
    abstract := "An abstract."
    authors := ["A One", "B Two"]
    journal := some "Journal"
    pub_date := "2024 Jan"
    doi := none
    keywords := ["LLM"]
    mesh_terms := [] }

def coNone : String → VariantOracles := fun _ => ⟨none, none, none, none⟩

def stEmpty : PipelineState := ⟨[], [], []⟩

def stWithSample : PipelineState := ⟨[ArticleRow.ofArticle sampleArticle 0], [], []⟩

/-- A node whose identifier and title are non-empty but whose `PubDate`
carries an empty `Year` element (`.text is None`), making the date join
raise. -/
def badNode : ArticleNode :=
  { pmidElem := some ⟨some "12345"⟩
    titleElem := some ⟨some "A Title"⟩
    abstractTexts := []
    authorNodes := []
    journalElem := none
    pubDateElem := some ⟨some ⟨none⟩, none, none⟩
    doiElem := none
    keywordTexts := []
    meshTexts := [] }

/-- A node that parses successfully. -/
def goodNode : ArticleNode :=
  { pmidElem := some ⟨some "12345"⟩
    titleElem := some ⟨some "A Title"⟩
    abstractTexts := []
    authorNodes := []
    journalElem := none
    pubDateElem := none
    doiElem := none
    keywordTexts := []
    meshTexts := [] }

/-- The article `parseArticleNode` extracts from `goodNode`. -/
def goodParsed : PubMedArticle :=
  { pmid := "12345"
    title := "A Title"
    abstract := ""
    authors := []
    journal := some ""
    pub_date := ""
    doi := none
    keywords := []
    mesh_terms := [] }

/-! ## Theorems -/

/-- C1: `Database.save_article` returns true only if the article was newly
inserted; it returns false when an article with the same identifier already
exists (store unchanged), and on any persistence error the transaction is
rolled back and the call returns false without raising, leaving the store
unchanged. -/
theorem C1_save_article_spec (rows : List ArticleRow) (d : PubMedArticle)
    (q : Rat) (ok : Bool) :
    ((saveArticle rows d q ok).1 = true ↔
      (articleExists rows d.pmid = false ∧ ok = true ∧
       (saveArticle rows d q ok).2 = rows ++ [ArticleRow.ofArticle d q]))
    ∧ (articleExists rows d.pmid = true → saveArticle rows d q ok = (false, rows))
    ∧ (ok = false → saveArticle rows d q ok = (false, rows)) := by
  unfold saveArticle
  cases h : articleExists rows d.pmid <;> cases ok <;> simp [h]

/-- C1 witness: a persistence error on a fresh article rolls back and
returns false. -/
theorem C1_save_article_witness :
    saveArticle [] sampleArticle 0 false = (false, []) :=
  (C1_save_article_spec [] sampleArticle 0 false).2.2 rfl

/-- C7: if the language-model call in `QueryGenerator.generate_query` fails,
the function returns exactly the raw interest wrapped in a title/abstract
field filter, and never raises. -/
theorem C7_query_fallback (interest : String) :
    generate_query interest none = "(" ++ interest ++ ")[Title/Abstract]" := rfl

/-- C8: any transport or parse failure during `PubMedClient.search` yields the
empty identifier list and propagates no exception. -/
theorem C8_search_failure_empty (q df : String)
    (http : String → Except Unit String)
    (decodeJson : String → Except Unit SearchEnvelope) :
    (http ("(" ++ q ++ ") AND " ++ df) = Except.error () →
      searchPM q df http decodeJson = [])
    ∧ (∀ body, http ("(" ++ q ++ ") AND " ++ df) = Except.ok body →
        decodeJson body = Except.error () →
        searchPM q df http decodeJson = []) := by
  constructor
  · intro h
    simp [searchPM, h]
  · intro body h1 h2
    simp [searchPM, h1, h2]

/-- C8 witness: a transport error yields the empty identifier list. -/
theorem C8_search_failure_witness :
    searchPM "cancer" "2026/10/05:2026/10/12[PDAT]"
      (fun _ => Except.error ()) (fun _ => Except.ok ⟨none⟩) = [] :=
  (C8_search_failure_empty "cancer" "2026/10/05:2026/10/12[PDAT]"
    (fun _ => Except.error ()) (fun _ => Except.ok ⟨none⟩)).1 rfl

/-- C2: `generate_all` returns a mapping with exactly the four variant keys;
a variant whose model call fails is replaced by its deterministic fallback
built from the fields of the article; the entry of each variant depends only on its own
model-call outcome, so one failure never blocks, fails, or alters the other
three; and the function is total, so a model-call failure never raises. -/
theorem C2_generate_all_spec (a : PubMedArticle) (o1 o2 o3 o4 : Option String) :
    ((generateAll a o1 o2 o3 o4).map Prod.fst =
      ["xiaohongshu_long", "xiaohongshu_short", "wechat_long", "wechat_short"])
    ∧ ((generateAll a o1 o2 o3 o4).lookup "xiaohongshu_long" =
        some (generate_xiaohongshu_long a o1))
    ∧ ((generateAll a o1 o2 o3 o4).lookup "xiaohongshu_short" =
        some (generate_xiaohongshu_short a o2))
    ∧ ((generateAll a o1 o2 o3 o4).lookup "wechat_long" =
        some (generate_wechat_long a o3))
    ∧ ((generateAll a o1 o2 o3 o4).lookup "wechat_short" =
        some (generate_wechat_short a o4))
    ∧ (o1 = none → generate_xiaohongshu_long a o1 = fallback_xiaohongshu_long a)
    ∧ (o2 = none → generate_xiaohongshu_short a o2 = fallback_xiaohongshu_short a)
    ∧ (o3 = none → generate_wechat_long a o3 = fallback_wechat_long a)
    ∧ (o4 = none → generate_wechat_short a o4 = fallback_wechat_short a)
    ∧ (∀ p2 p3 p4, (generateAll a o1 p2 p3 p4).lookup "xiaohongshu_long" =
        (generateAll a o1 o2 o3 o4).lookup "xiaohongshu_long")
    ∧ (∀ p1 p3 p4, (generateAll a p1 o2 p3 p4).lookup "xiaohongshu_short" =
        (generateAll a o1 o2 o3 o4).lookup "xiaohongshu_short")
    ∧ (∀ p1 p2 p4, (generateAll a p1 p2 o3 p4).lookup "wechat_long" =
        (generateAll a o1 o2 o3 o4).lookup "wechat_long")
    ∧ (∀ p1 p2 p3, (generateAll a p1 p2 p3 o4).lookup "wechat_short" =
        (generateAll a o1 o2 o3 o4).lookup "wechat_short") :=
  ⟨rfl, rfl, rfl, rfl, rfl,
   fun h => by rw [h]; rfl,
   fun h => by rw [h]; rfl,
   fun h => by rw [h]; rfl,
   fun h => by rw [h]; rfl,
   fun _ _ _ => rfl, fun _ _ _ => rfl, fun _ _ _ => rfl, fun _ _ _ => rfl⟩

/-- C2 witness: with all four model calls failing, the mapping still carries
the `wechat_short` key, bound to its deterministic fallback. -/
theorem C2_generate_all_witness :
    (generateAll sampleArticle none none none none).lookup "wechat_short" =
      some (fallback_wechat_short sampleArticle) := by
  obtain ⟨h1, h2, h3, h4, h5, h6, h7, h8, h9, hrest⟩ :=
    C2_generate_all_spec sampleArticle none none none none
  rw [h5, h9 rfl]

/-- C9: for every article and every variant, a failed generation attempt
substitutes a text that is a pure function of the own fields of the article; two
failed attempts on the same article produce byte-identical text, and the
xiaohongshu-long fallback depends only on the title, journal, keywords and
identifier fields it interpolates. -/
theorem C9_fallback_determinism (a : PubMedArticle) (o o2 : Option String)
    (h : o = none) (h2 : o2 = none) :
    generate_xiaohongshu_long a o = generate_xiaohongshu_long a o2
    ∧ generate_xiaohongshu_short a o = generate_xiaohongshu_short a o2
    ∧ generate_wechat_long a o = generate_wechat_long a o2
    ∧ generate_wechat_short a o = generate_wechat_short a o2
    ∧ generate_xiaohongshu_long a o = fallback_xiaohongshu_long a
    ∧ (∀ b : PubMedArticle, a.title = b.title → a.journal = b.journal →
        a.keywords = b.keywords → a.pmid = b.pmid →
        fallback_xiaohongshu_long a = fallback_xiaohongshu_long b) := by
  subst h h2
  refine ⟨rfl, rfl, rfl, rfl, rfl, ?_⟩
  intro b ht hj hk hp
  simp only [fallback_xiaohongshu_long, PubMedArticle.url, ht, hj, hk, hp]

/-- C9 witness: a failed attempt on the sample article yields exactly the
deterministic fallback text. -/
theorem C9_fallback_determinism_witness :
    generate_xiaohongshu_long sampleArticle none =
      fallback_xiaohongshu_long sampleArticle :=
  (C9_fallback_determinism sampleArticle none none rfl rfl).2.2.2.2.1

/-! ### Helper lemmas on parsing and batching -/

lemma runBatches_nil (i : Nat)
    (respond : Nat → List String → Except Unit (List ArticleNode)) :
    runBatches [] i respond = ([], 0) := rfl

lemma runBatches_cons (b : List String) (rest : List (List String)) (i : Nat)
    (respond : Nat → List String → Except Unit (List ArticleNode)) :
    runBatches (b :: rest) i respond =
      match respond i b with
      | .error _ => ([], 1)
      | .ok ns =>
        (ns.filterMap parseArticleNode ++ (runBatches rest (i + 1) respond).1,
         1 + (runBatches rest (i + 1) respond).2) := rfl

lemma pyTruthy_getD_ne (o : Option String) (h : pyTruthy o = true) :
    o.getD "" ≠ "" := by
  cases o with
  | none => simp [pyTruthy] at h
  | some s =>
    rw [pyTruthy, bne_iff_ne] at h
    simpa using h

lemma parse_pmid_title (n : ArticleNode) (a : PubMedArticle)
    (h : parseArticleNode n = some a) : a.pmid ≠ "" ∧ a.title ≠ "" := by
  unfold parseArticleNode at h
  cases hpd : nodePubDate n with
  | none => rw [hpd] at h; cases h
  | some pd =>
    rw [hpd] at h
    cases hc : (pyTruthy (nodePmid n) && pyTruthy (nodeTitle n)) with
    | false => rw [hc] at h; simp at h
    | true =>
      rw [hc] at h
      simp only [if_true] at h
      obtain ⟨h1, h2⟩ : pyTruthy (nodePmid n) = true ∧ pyTruthy (nodeTitle n) = true := by
        simpa using hc
      have ha := Option.some.inj h
      constructor
      · rw [← ha]; exact pyTruthy_getD_ne _ h1
      · rw [← ha]; exact pyTruthy_getD_ne _ h2

lemma runBatches_mem (respond : Nat → List String → Except Unit (List ArticleNode)) :
    ∀ (bs : List (List String)) (i : Nat) (a : PubMedArticle),
      a ∈ (runBatches bs i respond).1 → ∃ n, parseArticleNode n = some a := by
  intro bs
  induction bs with
  | nil => intro i a h; simp [runBatches_nil] at h
  | cons b rest ih =>
    intro i a h
    rw [runBatches_cons] at h
    cases hr : respond i b with
    | error e => rw [hr] at h; simp at h
    | ok ns =>
      rw [hr] at h
      simp only [List.mem_append] at h
      rcases h with h | h
      · obtain ⟨n, _, hn⟩ := List.mem_filterMap.mp h
        exact ⟨n, hn⟩
      · exact ih (i + 1) a h

lemma chunksAux_length : ∀ (fuel : Nat) (l : List String), l.length ≤ fuel →
    (chunksAux fuel l).length = (l.length + 99) / 100 := by
  intro fuel
  induction fuel with
  | zero =>
    intro l hl
    have hnil : l = [] := List.eq_nil_of_length_eq_zero (Nat.le_zero.mp hl)
    subst hnil
    rfl
  | succ fuel ih =>
    intro l hl
    cases l with
    | nil => rfl
    | cons x xs =>
      have hlen : (List.drop 100 (x :: xs)).length ≤ fuel := by
        rw [List.length_drop]
        simp only [List.length_cons] at hl ⊢
        omega
      have hrec := ih _ hlen
      show (List.take 100 (x :: xs) :: chunksAux fuel (List.drop 100 (x :: xs))).length = _
      simp only [List.length_cons]
      rw [hrec, List.length_drop]
      simp only [List.length_cons]
      omega

lemma chunksAux_flatten : ∀ (fuel : Nat) (l : List String), l.length ≤ fuel →
    (chunksAux fuel l).flatten = l := by
  intro fuel
  induction fuel with
  | zero =>
    intro l hl
    have hnil : l = [] := List.eq_nil_of_length_eq_zero (Nat.le_zero.mp hl)
    subst hnil
    rfl
  | succ fuel ih =>
    intro l hl
    cases l with
    | nil => rfl
    | cons x xs =>
      have hlen : (List.drop 100 (x :: xs)).length ≤ fuel := by
        rw [List.length_drop]
        simp only [List.length_cons] at hl ⊢
        omega
      show (List.take 100 (x :: xs) :: chunksAux fuel (List.drop 100 (x :: xs))).flatten
        = x :: xs
      rw [List.flatten_cons, ih _ hlen, List.take_append_drop]

lemma chunksAux_size : ∀ (fuel : Nat) (l : List String) (b : List String),
    b ∈ chunksAux fuel l → b.length ≤ 100 := by
  intro fuel
  induction fuel with
  | zero => intro l b h; simp [chunksAux] at h
  | succ fuel ih =>
    intro l b h
    cases l with
    | nil => simp [chunksAux] at h
    | cons x xs =>
      have h2 : b ∈ List.take 100 (x :: xs) :: chunksAux fuel (List.drop 100 (x :: xs)) := h
      rcases List.mem_cons.mp h2 with h3 | h3
      · subst h3; exact List.length_take_le _ _
      · exact ih _ _ h3

lemma runBatches_count (respond : Nat → List String → Except Unit (List ArticleNode))
    (h : ∀ i b, ∃ ns, respond i b = Except.ok ns) :
    ∀ (bs : List (List String)) (i : Nat), (runBatches bs i respond).2 = bs.length := by
  intro bs
  induction bs with
  | nil => intro i; rfl
  | cons b rest ih =>
    intro i
    obtain ⟨ns, hns⟩ := h i b
    rw [runBatches_cons, hns]
    simp only [List.length_cons]
    rw [ih (i + 1)]
    omega

lemma runBatches_at_fail (respond : Nat → List String → Except Unit (List ArticleNode)) :
    ∀ (k : Nat) (bs : List (List String)) (i : Nat), k < bs.length →
    (∀ (j : Nat) (b : List String), j < k → ∃ ns, respond (i + j) b = Except.ok ns) →
    (∀ b : List String, respond (i + k) b = Except.error ()) →
    runBatches bs i respond = (batchArticles respond (bs.take k) i, k + 1) := by
  intro k
  induction k with
  | zero =>
    intro bs i hk hok hfail
    cases bs with
    | nil => simp at hk
    | cons b rest =>
      have hb := hfail b
      rw [Nat.add_zero] at hb
      rw [runBatches_cons, hb]
      rfl
  | succ k ih =>
    intro bs i hk hok hfail
    cases bs with
    | nil => simp at hk
    | cons b rest =>
      obtain ⟨ns, hns⟩ := by
        have := hok 0 b (Nat.succ_pos k)
        rwa [Nat.add_zero] at this
      have hok2 : ∀ (j : Nat) (b2 : List String), j < k →
          ∃ ns2, respond ((i + 1) + j) b2 = Except.ok ns2 := by
        intro j b2 hj
        have := hok (j + 1) b2 (Nat.succ_lt_succ hj)
        rwa [show i + (j + 1) = (i + 1) + j by omega] at this
      have hfail2 : ∀ b2 : List String, respond ((i + 1) + k) b2 = Except.error () := by
        intro b2
        have := hfail b2
        rwa [show i + (k + 1) = (i + 1) + k by omega] at this
      have hk2 : k < rest.length := by
        simp only [List.length_cons] at hk
        omega
      have hrec := ih rest (i + 1) hk2 hok2 hfail2
      rw [runBatches_cons, hns, hrec]
      show (_, _) = (batchArticles respond (b :: rest.take k) i, _)
      show (_, _) = ((match respond i b with
        | .ok ns2 => ns2.filterMap parseArticleNode
        | .error _ => []) ++ batchArticles respond (rest.take k) (i + 1), _)
      rw [hns]
      simp only [Prod.mk.injEq]
      exact ⟨trivial, by omega⟩

/-- C6: with every detail request succeeding, `fetch_articles` partitions the
identifiers into consecutive batches of at most 100 (the batches concatenate
back to the identifier list) and issues exactly `ceil(len/100)` detail
requests; an empty identifier sequence issues zero requests. -/
theorem C6_batch_invariant (pmids : List String)
    (respond : Nat → List String → Except Unit (List ArticleNode))
    (h : ∀ i b, ∃ ns, respond i b = Except.ok ns) :
    (fetchArticles pmids respond).2 = (pmids.length + 99) / 100
    ∧ (∀ b ∈ chunks pmids, b.length ≤ 100)
    ∧ (chunks pmids).flatten = pmids
    ∧ (pmids = [] → (fetchArticles pmids respond).2 = 0) := by
  refine ⟨?_, ?_, ?_, ?_⟩
  · cases pmids with
    | nil => rfl
    | cons x xs =>
      show (runBatches (chunks (x :: xs)) 0 respond).2 = _
      rw [runBatches_count respond h]
      exact chunksAux_length _ _ (Nat.le_refl _)
  · intro b hb
    exact chunksAux_size _ _ _ hb
  · exact chunksAux_flatten _ _ (Nat.le_refl _)
  · intro h0
    subst h0
    rfl

/-- C6 witness: two identifiers are fetched in a single detail request. -/
theorem C6_batch_invariant_witness :
    (fetchArticles ["11", "22"] (fun _ _ => Except.ok [goodNode])).2 = 1 := by
  have h := C6_batch_invariant ["11", "22"] (fun _ _ => Except.ok [goodNode])
    (fun _ _ => ⟨[goodNode], rfl⟩)
  simpa using h.1

/-- C10: if the detail request for batch `k` fails (and the earlier ones
succeeded), `fetch_articles` raises no exception and returns exactly the
articles parsed from the batches before the failure, having issued `k + 1`
requests — every batch after the failing one is skipped, not retried. -/
theorem C10_fetch_failure_truncates (pmids : List String)
    (respond : Nat → List String → Except Unit (List ArticleNode)) (k : Nat)
    (hk : k < (chunks pmids).length)
    (hok : ∀ (j : Nat) (b : List String), j < k → ∃ ns, respond j b = Except.ok ns)
    (hfail : ∀ b : List String, respond k b = Except.error ()) :
    fetchArticles pmids respond =
      (batchArticles respond ((chunks pmids).take k) 0, k + 1) := by
  cases pmids with
  | nil => simp [chunks, chunksAux] at hk
  | cons x xs =>
    show runBatches (chunks (x :: xs)) 0 respond = _
    refine runBatches_at_fail respond k _ 0 hk ?_ ?_
    · intro j b hj
      simpa using hok j b hj
    · intro b
      simpa using hfail b

/-- C10 witness: with the very first detail request failing, the fetch of two
identifiers returns no articles after exactly one request. -/
theorem C10_fetch_failure_truncates_witness :
    fetchArticles ["11", "22"] (fun _ _ => Except.error ()) = ([], 1) := by
  have h := C10_fetch_failure_truncates ["11", "22"] (fun _ _ => Except.error ()) 0
    (by decide) (fun j b hj => absurd hj (Nat.not_lt_zero j)) (fun _ => rfl)
  simpa [batchArticles] using h

/-- C5 counterexample: a parsed node with non-empty identifier and non-empty
title is nevertheless absent from the output of `fetch_articles`, because its
`PubDate` holds an empty `Year` element, whose `None` text makes the date join
raise and the per-node handler skip the node.  This refutes the claimed
"exactly when" equivalence. -/
theorem C5_counterexample :
    pyTruthy (nodePmid badNode) = true ∧ pyTruthy (nodeTitle badNode) = true ∧
    parseArticleNode badNode = none ∧
    (fetchArticles ["12345"] (fun _ _ => Except.ok [badNode])).1 = [] := by
  decide

/-- C5 (amended): a parsed node contributes a record exactly when it yields a
non-empty identifier, a non-empty title, and its publication-date extraction
does not raise (no present `Year`/`Month`/`Day` element with absent text);
in particular every article in the output of `fetch_articles` has a non-empty
identifier and a non-empty title, so a node missing either never appears. -/
theorem C5_record_validity :
    (∀ n : ArticleNode, (parseArticleNode n).isSome =
      (pyTruthy (nodePmid n) && pyTruthy (nodeTitle n) && (nodePubDate n).isSome))
    ∧ (∀ (pmids : List String)
        (respond : Nat → List String → Except Unit (List ArticleNode))
        (a : PubMedArticle),
        a ∈ (fetchArticles pmids respond).1 → a.pmid ≠ "" ∧ a.title ≠ "") := by
  constructor
  · intro n
    unfold parseArticleNode
    cases hpd : nodePubDate n with
    | none => simp
    | some pd =>
      cases hc : (pyTruthy (nodePmid n) && pyTruthy (nodeTitle n)) with
      | false => simp [hc]
      | true => simp [hc]
  · intro pmids respond a h
    cases pmids with
    | nil => simp [fetchArticles] at h
    | cons x xs =>
      have h2 : a ∈ (runBatches (chunks (x :: xs)) 0 respond).1 := h
      obtain ⟨n, hn⟩ := runBatches_mem respond _ _ a h2
      exact parse_pmid_title n a hn

/-- C5 witness: an article obtained from a concrete fetch has non-empty
identifier and title. -/
theorem C5_record_validity_witness :
    goodParsed.pmid ≠ "" ∧ goodParsed.title ≠ "" :=
  C5_record_validity.2 ["12345"] (fun _ _ => Except.ok [goodNode]) goodParsed
    (by decide)

/-! ### Helper lemmas on the CLI pipeline -/

lemma processArticles_cons (dry : Bool) (co : String → VariantOracles)
    (so : String → Bool) (a : PubMedArticle) (rest : List PubMedArticle)
    (st : PipelineState) :
    processArticles dry co so (a :: rest) st =
      if articleExists st.articles a.pmid then
        processArticles dry co so rest st
      else if dry then
        let r := processArticles dry co so rest st
        (⟨a, none⟩ :: r.1, r.2.1, r.2.2)
      else
        let os := co a.pmid
        let content := generateAll a os.xhsLong os.xhsShort os.wcLong os.wcShort
        let saved := saveArticle st.articles a 0 (so a.pmid)
        let r := processArticles dry co so rest { st with articles := saved.2 }
        (⟨a, some content⟩ :: r.1, r.2.1, r.2.2 + 1) := rfl

lemma processArticles_dry_frame (co : String → VariantOracles)
    (so : String → Bool) :
    ∀ (arts : List PubMedArticle) (st : PipelineState),
      (processArticles true co so arts st).2.1 = st
      ∧ (processArticles true co so arts st).2.2 = 0
      ∧ ∀ it ∈ (processArticles true co so arts st).1, it.content = none := by
  intro arts
  induction arts with
  | nil =>
    intro st
    exact ⟨rfl, rfl, by intro it h; simp [processArticles] at h⟩
  | cons a rest ih =>
    intro st
    rw [processArticles_cons]
    cases h : articleExists st.articles a.pmid with
    | true =>
      simp only [if_true]
      exact ih st
    | false =>
      simp only [if_false, if_true]
      obtain ⟨h1, h2, h3⟩ := ih st
      refine ⟨h1, h2, ?_⟩
      intro it hit
      rcases List.mem_cons.mp hit with hh | hh
      · subst hh; rfl
      · exact h3 it hh

lemma processArticles_rep_hist (dry : Bool) (co : String → VariantOracles)
    (so : String → Bool) :
    ∀ (arts : List PubMedArticle) (st : PipelineState),
      (processArticles dry co so arts st).2.1.reports = st.reports
      ∧ (processArticles dry co so arts st).2.1.history = st.history := by
  intro arts
  induction arts with
  | nil => intro st; exact ⟨rfl, rfl⟩
  | cons a rest ih =>
    intro st
    rw [processArticles_cons]
    cases h : articleExists st.articles a.pmid with
    | true => exact ih st
    | false =>
      cases dry with
      | true => exact ih st
      | false =>
        exact ih { st with articles := (saveArticle st.articles a 0 (so a.pmid)).2 }

lemma processArticles_all_known (dry : Bool) (co : String → VariantOracles)
    (so : String → Bool) :
    ∀ (arts : List PubMedArticle) (st : PipelineState),
      (∀ a ∈ arts, articleExists st.articles a.pmid = true) →
      processArticles dry co so arts st = ([], st, 0) := by
  intro arts
  induction arts with
  | nil => intro st _; rfl
  | cons a rest ih =>
    intro st h
    rw [processArticles_cons, h a (List.mem_cons_self a rest)]
    simp only [if_true]
    exact ih st (fun b hb => h b (List.mem_cons_of_mem a hb))

lemma runSearch_ok_cons (q : String) (a : PubMedArticle)
    (rest : List PubMedArticle) (dryRun : Bool) (co : String → VariantOracles)
    (so : String → Bool) (rid date : String) (rok : Bool) (st : PipelineState) :
    runSearch (Except.ok q) (Except.ok (a :: rest)) dryRun co so rid date rok st =
      (let p := processArticles dryRun co so (a :: rest) st
       if p.1.isEmpty then ⟨true, p.2.1, p.2.2⟩
       else
         match createReport p.1 rid date rok p.2.1 with
         | .error _ => ⟨false, p.2.1, p.2.2⟩
         | .ok qq => ⟨true, qq.2, p.2.2⟩) := rfl

lemma createReport_missing_content (items : List RunItem) (rid date : String)
    (rok : Bool) (st : PipelineState) (it : RunItem) (hmem : it ∈ items)
    (hnone : it.content = none) :
    createReport items rid date rok st = Except.error () := by
  unfold createReport
  rw [if_pos]
  exact List.any_eq_true.mpr ⟨it, hmem, by rw [hnone]; rfl⟩

/-- C3 (amended): in dry-run mode no content-generation call is made and no
article and no report is persisted, but no search-history entry is recorded
either — the article, report and history tables are all left unchanged
(`run_search` never writes search history; report assembly, when reached,
raises on the content-less items and persists nothing). -/
theorem C3_dry_run_frame (queryRes : Except Unit String)
    (searchRes : Except Unit (List PubMedArticle)) (co : String → VariantOracles)
    (so : String → Bool) (rid date : String) (rok : Bool) (st : PipelineState) :
    (runSearch queryRes searchRes true co so rid date rok st).genCalls = 0
    ∧ (runSearch queryRes searchRes true co so rid date rok st).state.articles
        = st.articles
    ∧ (runSearch queryRes searchRes true co so rid date rok st).state.reports
        = st.reports
    ∧ (runSearch queryRes searchRes true co so rid date rok st).state.history
        = st.history := by
  cases queryRes with
  | error e => exact ⟨rfl, rfl, rfl, rfl⟩
  | ok q =>
    cases searchRes with
    | error e => exact ⟨rfl, rfl, rfl, rfl⟩
    | ok arts =>
      cases arts with
      | nil => exact ⟨rfl, rfl, rfl, rfl⟩
      | cons a rest =>
        rw [runSearch_ok_cons]
        obtain ⟨h1, h2, h3⟩ := processArticles_dry_frame co so (a :: rest) st
        cases hI : (processArticles true co so (a :: rest) st).1 with
        | nil =>
          simp only [hI, List.isEmpty_nil, if_true]
          rw [h1, h2]
          exact ⟨rfl, rfl, rfl, rfl⟩
        | cons it rest2 =>
          have herr := createReport_missing_content
            (processArticles true co so (a :: rest) st).1 rid date rok
            (processArticles true co so (a :: rest) st).2.1 it
            (by rw [hI]; exact List.mem_cons_self it rest2)
            (h3 it (by rw [hI]; exact List.mem_cons_self it rest2))
          simp only [hI, List.isEmpty_cons, if_false, Bool.false_eq_true, ite_false]
          rw [← hI, herr]
          rw [h1, h2]
          exact ⟨rfl, rfl, rfl, rfl⟩

/-- C3 counterexample: a concrete dry-run over one fresh article records no
search-history entry at all, refuting the claim that exactly one entry is
recorded. -/
theorem C3_counterexample :
    (runSearch (Except.ok "q") (Except.ok [sampleArticle]) true coNone
      (fun _ => true) "r1" "2026-10-12" true stEmpty).state.history.length ≠
      stEmpty.history.length + 1 := by
  decide

/-- C4 (amended): a pipeline run whose search/fetch yields zero articles, or
whose fetched articles are all already in the store, terminates successfully,
makes no generation call, produces no report, and records no search-history
entry — the state is returned unchanged. -/
theorem C4_no_new_articles (q : String) (arts : List PubMedArticle)
    (dryRun : Bool) (co : String → VariantOracles) (so : String → Bool)
    (rid date : String) (rok : Bool) (st : PipelineState) :
    (runSearch (Except.ok q) (Except.ok []) dryRun co so rid date rok st
      = ⟨true, st, 0⟩)
    ∧ ((∀ a ∈ arts, articleExists st.articles a.pmid = true) →
        runSearch (Except.ok q) (Except.ok arts) dryRun co so rid date rok st
          = ⟨true, st, 0⟩) := by
  constructor
  · rfl
  · intro h
    cases arts with
    | nil => rfl
    | cons a rest =>
      rw [runSearch_ok_cons]
      have hall := processArticles_all_known dryRun co so (a :: rest) st h
      simp [hall]

/-- C4 witness: a run over one already-stored article returns success with the
state unchanged. -/
theorem C4_no_new_articles_witness :
    runSearch (Except.ok "q") (Except.ok [sampleArticle]) false coNone
      (fun _ => true) "r1" "2026-10-12" true stWithSample
      = ⟨true, stWithSample, 0⟩ :=
  (C4_no_new_articles "q" [sampleArticle] false coNone (fun _ => true) "r1"
    "2026-10-12" true stWithSample).2 (by decide)

/-- C4 counterexample: concrete zero-article and all-known runs record no
search-history entry, refuting the claim that a history entry (with
`new_articles = 0` in the all-known case) is still recorded. -/
theorem C4_counterexample :
    (runSearch (Except.ok "q") (Except.ok []) false coNone (fun _ => true) "r1"
      "2026-10-12" true stEmpty).state.history.length ≠
      stEmpty.history.length + 1
    ∧ (runSearch (Except.ok "q") (Except.ok [sampleArticle]) false coNone
        (fun _ => true) "r1" "2026-10-12" true stWithSample).state.history.length ≠
        stWithSample.history.length + 1 := by
  decide
